import Mathlib

/-!
Verification of `create_template_js.py` from the MBSync repository.

The script creates the directory `lib` (with `exist_ok=True`), checks that
the source workbook `MB Change Request Form.xlsx` exists, and then, inside a
`try` block, reads its bytes, base64-encodes them, and writes the single line
`window.TEMPLATE_DATA = '<base64>';` to `lib/template-data.js`, catching any
exception raised inside the `try` block and printing it.

We embed the pure base64 transform on byte lists (bytes are `Nat < 256`) and
the file-system behaviour of the script as a function on an explicit
file-system state, with an oracle for the I/O failures (read failure, write
failure after `k` bytes) that are not determined by the state itself.
-/

/-- The base64 alphabet, in order, exactly as used by `base64.b64encode`. -/
def b64chars : List Char :=
  ['A', 'B', 'C', 'D', 'E', 'F', 'G', 'H', 'I', 'J', 'K', 'L', 'M',
   'N', 'O', 'P', 'Q', 'R', 'S', 'T', 'U', 'V', 'W', 'X', 'Y', 'Z',
   'a', 'b', 'c', 'd', 'e', 'f', 'g', 'h', 'i', 'j', 'k', 'l', 'm',
   'n', 'o', 'p', 'q', 'r', 's', 't', 'u', 'v', 'w', 'x', 'y', 'z',
   '0', '1', '2', '3', '4', '5', '6', '7', '8', '9', '+', '/']

/-- The character standing for the 6-bit value `n`. -/
def b64char (n : Nat) : Char := b64chars.getD n 'A'

/-- Index of a character in the base64 alphabet. -/
def b64index (c : Char) : Nat := b64chars.indexOf c

/-- Standard base64 encoding of a byte list (RFC 4648, as `base64.b64encode`):
three bytes become four alphabet characters; a two-byte remainder becomes
three characters and `=`; a one-byte remainder becomes two characters
and `==`. -/
def b64encode : List Nat → List Char
  | [] => []
  | [a] => [b64char (a / 4), b64char (a % 4 * 16), '=', '=']
  | [a, b] => [b64char (a / 4), b64char (a % 4 * 16 + b / 16),
               b64char (b % 16 * 4), '=']
  | a :: b :: c :: rest =>
      b64char (a / 4) :: b64char (a % 4 * 16 + b / 16) ::
      b64char (b % 16 * 4 + c / 64) :: b64char (c % 64) :: b64encode rest

/-- Standard base64 decoding: four characters yield three bytes, with the
padding characters `=` cutting the last group to one or two bytes. -/
def b64decode : List Char → List Nat
  | c1 :: c2 :: c3 :: c4 :: rest =>
      if c3 = '=' then
        [b64index c1 * 4 + b64index c2 / 16]
      else if c4 = '=' then
        [b64index c1 * 4 + b64index c2 / 16,
         b64index c2 % 16 * 16 + b64index c3 / 4]
      else
        (b64index c1 * 4 + b64index c2 / 16) ::
        (b64index c2 % 16 * 16 + b64index c3 / 4) ::
        (b64index c3 % 4 * 64 + b64index c4) :: b64decode rest
  | _ => []

theorem b64index_b64char : ∀ n < 64, b64index (b64char n) = n := by decide

theorem b64char_ne_pad : ∀ n < 64, b64char n ≠ '=' := by decide

theorem b64char_mem : ∀ n < 64, b64char n ∈ b64chars := by decide

/-- Round trip: decoding the encoding of any byte list recovers it. -/
theorem b64decode_b64encode (B : List Nat) (hB : ∀ b ∈ B, b < 256) :
    b64decode (b64encode B) = B := by
  match B with
  | [] => rfl
  | [a] =>
    have ha : a < 256 := hB a (by simp)
    have h1 : a / 4 < 64 := by omega
    have h2 : a % 4 * 16 < 64 := by omega
    rw [b64encode, b64decode]
    rw [if_pos rfl, b64index_b64char _ h1, b64index_b64char _ h2]
    congr 1
    omega
  | [a, b] =>
    have ha : a < 256 := hB a (by simp)
    have hb : b < 256 := hB b (by simp)
    have h1 : a / 4 < 64 := by omega
    have h2 : a % 4 * 16 + b / 16 < 64 := by omega
    have h3 : b % 16 * 4 < 64 := by omega
    rw [b64encode, b64decode]
    rw [if_neg (b64char_ne_pad _ h3), if_pos rfl]
    rw [b64index_b64char _ h1, b64index_b64char _ h2, b64index_b64char _ h3]
    congr 1
    · omega
    · congr 1
      omega
  | a :: b :: c :: rest =>
    have ha : a < 256 := hB a (by simp)
    have hb : b < 256 := hB b (by simp)
    have hc : c < 256 := hB c (by simp)
    have h1 : a / 4 < 64 := by omega
    have h2 : a % 4 * 16 + b / 16 < 64 := by omega
    have h3 : b % 16 * 4 + c / 64 < 64 := by omega
    have h4 : c % 64 < 64 := by omega
    have ih : b64decode (b64encode rest) = rest :=
      b64decode_b64encode rest (by
        intro x hx
        exact hB x (by simp [hx]))
    rw [b64encode, b64decode]
    rw [if_neg (b64char_ne_pad _ h3), if_neg (b64char_ne_pad _ h4)]
    rw [b64index_b64char _ h1, b64index_b64char _ h2,
        b64index_b64char _ h3, b64index_b64char _ h4, ih]
    congr 1
    · omega
    · congr 1
      · omega
      · congr 1
        omega
termination_by B.length

/-- Every character produced by the encoder is an alphabet character or the
padding character `=`. -/
theorem b64encode_mem_valid (B : List Nat) (hB : ∀ b ∈ B, b < 256) :
    ∀ c ∈ b64encode B, c ∈ b64chars ∨ c = '=' := by
  match B with
  | [] => intro c hc; simp [b64encode] at hc
  | [a] =>
    have ha : a < 256 := hB a (by simp)
    intro c hc
    rw [b64encode] at hc
    simp only [List.mem_cons, List.not_mem_nil, or_false] at hc
    rcases hc with rfl | rfl | rfl | rfl
    · exact Or.inl (b64char_mem _ (by omega))
    · exact Or.inl (b64char_mem _ (by omega))
    · exact Or.inr rfl
    · exact Or.inr rfl
  | [a, b] =>
    have ha : a < 256 := hB a (by simp)
    have hb : b < 256 := hB b (by simp)
    intro c hc
    rw [b64encode] at hc
    simp only [List.mem_cons, List.not_mem_nil, or_false] at hc
    rcases hc with rfl | rfl | rfl | rfl
    · exact Or.inl (b64char_mem _ (by omega))
    · exact Or.inl (b64char_mem _ (by omega))
    · exact Or.inl (b64char_mem _ (by omega))
    · exact Or.inr rfl
  | a :: b :: c :: rest =>
    have ha : a < 256 := hB a (by simp)
    have hb : b < 256 := hB b (by simp)
    have hc' : c < 256 := hB c (by simp)
    have ih := b64encode_mem_valid rest (by
      intro x hx
      exact hB x (by simp [hx]))
    intro x hx
    rw [b64encode] at hx
    simp only [List.mem_cons] at hx
    rcases hx with rfl | rfl | rfl | rfl | hx
    · exact Or.inl (b64char_mem _ (by omega))
    · exact Or.inl (b64char_mem _ (by omega))
    · exact Or.inl (b64char_mem _ (by omega))
    · exact Or.inl (b64char_mem _ (by omega))
    · exact ih x hx
termination_by B.length

/-! ## File-system model and the embedded script -/

/-- File-system state: the set of directories and the files with their byte
contents, as an association list keyed by path. -/
structure FS where
  dirs : List String
  files : List (String × List Nat)
deriving DecidableEq

/-- Look a path up in an association list of files (first binding wins). -/
def lookupFile (p : String) : List (String × List Nat) → Option (List Nat)
  | [] => none
  | (q, c) :: rest => if q = p then some c else lookupFile p rest

/-- Create or overwrite the binding of a path in a file association list. -/
def setFile (p : String) (v : List Nat) : List (String × List Nat) → List (String × List Nat)
  | [] => [(p, v)]
  | (q, c) :: rest => if q = p then (p, v) :: rest else (q, c) :: setFile p v rest

/-- Add a directory if it is not already present (idempotent). -/
def insertDir (d : String) (ds : List String) : List String :=
  if d ∈ ds then ds else d :: ds

/-- `os.path.exists`: true when the path is a file or a directory. -/
def pathExists (p : String) (fs : FS) : Bool :=
  (lookupFile p fs.files).isSome || fs.dirs.contains p

/-- Create or overwrite a file. -/
def writeFile (p : String) (v : List Nat) (fs : FS) : FS :=
  { fs with dirs := fs.dirs, files := setFile p v fs.files }

/-- `os.makedirs(d, exist_ok=True)`: creates the directory idempotently, but
raises (result `none`) when the path already exists as a regular file. -/
def makedirs (d : String) (fs : FS) : Option FS :=
  if (lookupFile d fs.files).isSome then none
  else some { fs with dirs := insertDir d fs.dirs }

def sourceFile : String := "MB Change Request Form.xlsx"

def outputFile : String := "lib/template-data.js"

def libDir : String := "lib"

/-- A single-quote character, written by code point to keep it out of string
literals. -/
def squote : Char := Char.ofNat 39

def squoteStr : String := String.mk [squote]

def notFoundMsg : String :=
  "Error: " ++ squoteStr ++ sourceFile ++ squoteStr ++
  " not found. Please place your Excel file in this folder."

def successMsg : String := "Success! Created " ++ outputFile

def linkMsg : String := "Link this file in your index.html before app.js"

def errMsg (e : String) : String := "Error: " ++ e

/-- The characters before the encoded payload in the generated line. -/
def tplHead : List Char := ("window.TEMPLATE_DATA = " ++ squoteStr).toList

/-- The characters after the encoded payload in the generated line. -/
def tplTail : List Char := (squoteStr ++ ";").toList

/-- The full text of the generated artifact for source bytes `B`,
`window.TEMPLATE_DATA = '<base64 of B>';`. -/
def jsContent (B : List Nat) : List Char := tplHead ++ b64encode B ++ tplTail

/-- The bytes the text-mode write stores (the content is pure ASCII). -/
def jsBytes (B : List Nat) : List Nat := (jsContent B).map Char.toNat

/-- Environment oracle for the I/O failures that are not determined by the
file-system state: a run where reading the source raises, or where writing
the output raises after only the first `k` bytes reached the file (text-mode
`open(_, "w")` truncates the file before writing). -/
inductive Oracle where
  | ok
  | readFails
  | writeFails (k : Nat)
deriving DecidableEq

/-- Outcome of a run: the lines printed on a normal return, or the message of
an exception that propagated to the caller. -/
inductive RunResult where
  | returned (msgs : List String)
  | raised (msg : String)
deriving DecidableEq

/-- `RunResult.raised` recogniser. -/
def RunResult.isRaised : RunResult → Bool
  | RunResult.returned _ => false
  | RunResult.raised _ => true

/-- The embedding of `create_template_js()`: `os.makedirs("lib",
exist_ok=True)` (outside the `try`, so its failure propagates), the
`os.path.exists` check with the not-found message, then the `try` block:
read the source bytes, base64-encode, write the one-line artifact, report
success; any exception inside the `try` is caught and printed. -/
def create_template_js (o : Oracle) (fs : FS) : RunResult × FS :=
  match makedirs libDir fs with
  | none => (RunResult.raised "FileExistsError", fs)
  | some fs1 =>
    if pathExists sourceFile fs1 then
      match o with
      | Oracle.readFails => (RunResult.returned [errMsg "read failed"], fs1)
      | Oracle.writeFails k =>
        match lookupFile sourceFile fs1.files with
        | some B =>
          (RunResult.returned [errMsg "write failed"],
           writeFile outputFile ((jsBytes B).take k) fs1)
        | none => (RunResult.returned [errMsg "IsADirectoryError"], fs1)
      | Oracle.ok =>
        match lookupFile sourceFile fs1.files with
        | some B =>
          (RunResult.returned [successMsg, linkMsg],
           writeFile outputFile (jsBytes B) fs1)
        | none => (RunResult.returned [errMsg "IsADirectoryError"], fs1)
    else
      (RunResult.returned [notFoundMsg], fs1)

/-! ## Helper lemmas -/

theorem lookup_setFile_self (p : String) (v : List Nat) (l : List (String × List Nat)) :
    lookupFile p (setFile p v l) = some v := by
  induction l with
  | nil => simp [setFile, lookupFile]
  | cons hd tl ih =>
    obtain ⟨q, c⟩ := hd
    by_cases h : q = p
    · simp [setFile, h, lookupFile]
    · simp [setFile, h, lookupFile, ih]

theorem lookup_setFile_ne (p q : String) (v : List Nat) (l : List (String × List Nat))
    (h : q ≠ p) : lookupFile q (setFile p v l) = lookupFile q l := by
  induction l with
  | nil => simp [setFile, lookupFile, Ne.symm h]
  | cons hd tl ih =>
    obtain ⟨r, c⟩ := hd
    by_cases hr : r = p
    · subst hr
      simp [setFile, lookupFile, Ne.symm h]
    · simp [setFile, hr, lookupFile, ih]

theorem mem_insertDir (x d : String) (ds : List String) :
    x ∈ insertDir d ds ↔ x = d ∨ x ∈ ds := by
  by_cases h : d ∈ ds
  · simp only [insertDir, if_pos h]
    constructor
    · exact Or.inr
    · rintro (rfl | hx)
      · exact h
      · exact hx
  · simp [insertDir, if_neg h]

theorem source_ne_output : sourceFile ≠ outputFile := by decide

theorem source_ne_lib : sourceFile ≠ libDir := by decide

theorem output_ne_lib : outputFile ≠ libDir := by decide

/-- On a state with no file named `lib`, a source file holding `B`, and a
working environment, the run returns the success messages and writes the
artifact. -/
theorem create_ok_eq (fs : FS) (B : List Nat)
    (hnolib : lookupFile libDir fs.files = none)
    (hsrc : lookupFile sourceFile fs.files = some B) :
    create_template_js Oracle.ok fs =
      (RunResult.returned [successMsg, linkMsg],
       writeFile outputFile (jsBytes B) { fs with dirs := insertDir libDir fs.dirs }) := by
  simp [create_template_js, makedirs, hnolib, pathExists, hsrc]

/-- On a state with no file named `lib` and no source file, the run reports
the not-found message and only adds the `lib` directory. -/
theorem create_missing_eq (o : Oracle) (fs : FS)
    (hnolib : lookupFile libDir fs.files = none)
    (hnosrc : lookupFile sourceFile fs.files = none)
    (hnosrcd : sourceFile ∉ fs.dirs) :
    create_template_js o fs =
      (RunResult.returned [notFoundMsg], { fs with dirs := insertDir libDir fs.dirs }) := by
  have hmem : sourceFile ∉ insertDir libDir fs.dirs := by
    rw [mem_insertDir]
    rintro (h | h)
    · exact source_ne_lib h
    · exact hnosrcd h
  have hpe : pathExists sourceFile { fs with dirs := insertDir libDir fs.dirs } = false := by
    simp [pathExists, hnosrc, List.contains, hmem]
  simp [create_template_js, makedirs, hnolib, hpe]

/-- A run whose source read raises: the exception is caught, only the error
message is printed, and no file changes. -/
theorem create_readFails_eq (fs : FS) (B : List Nat)
    (hnolib : lookupFile libDir fs.files = none)
    (hsrc : lookupFile sourceFile fs.files = some B) :
    create_template_js Oracle.readFails fs =
      (RunResult.returned [errMsg "read failed"],
       { fs with dirs := insertDir libDir fs.dirs }) := by
  simp [create_template_js, makedirs, hnolib, pathExists, hsrc]

/-- A run whose output write raises after `k` bytes reached the (truncated)
file: the exception is caught and the output file holds the first `k` bytes
of the artifact. -/
theorem create_writeFails_eq (fs : FS) (B : List Nat) (k : Nat)
    (hnolib : lookupFile libDir fs.files = none)
    (hsrc : lookupFile sourceFile fs.files = some B) :
    create_template_js (Oracle.writeFails k) fs =
      (RunResult.returned [errMsg "write failed"],
       writeFile outputFile ((jsBytes B).take k)
         { fs with dirs := insertDir libDir fs.dirs }) := by
  simp [create_template_js, makedirs, hnolib, pathExists, hsrc]

/-- When a regular file named `lib` is in the way, `os.makedirs` raises
outside the `try` block and the exception propagates. -/
theorem create_libfile_eq (o : Oracle) (fs : FS) (c : List Nat)
    (hlib : lookupFile libDir fs.files = some c) :
    create_template_js o fs = (RunResult.raised "FileExistsError", fs) := by
  simp [create_template_js, makedirs, hlib]

/-- A concrete state: empty directory list, a three-byte source workbook. -/
def fsW : FS := ⟨[], [(sourceFile, [0, 255, 7])]⟩

/-! ## The claims -/

/-- C1: for every byte sequence `B` stored in the fixed source file, a run of
`create_template_js` produces an output file `lib/template-data.js` whose
text between the two single quotes is `b64encode B`, and base64-decoding that
text gives back exactly `B` (encode-then-decode round trip). -/
theorem c1_roundtrip (fs : FS) (B : List Nat) (hB : ∀ b ∈ B, b < 256)
    (hnolib : lookupFile libDir fs.files = none)
    (hsrc : lookupFile sourceFile fs.files = some B) :
    lookupFile outputFile (create_template_js Oracle.ok fs).2.files
      = some ((tplHead ++ b64encode B ++ tplTail).map Char.toNat) ∧
    b64decode (b64encode B) = B := by
  refine ⟨?_, b64decode_b64encode B hB⟩
  rw [create_ok_eq fs B hnolib hsrc]
  simp [writeFile, lookup_setFile_self, jsBytes, jsContent]

theorem c1_roundtrip_witness :
    lookupFile outputFile (create_template_js Oracle.ok fsW).2.files
      = some ((tplHead ++ b64encode [0, 255, 7] ++ tplTail).map Char.toNat) ∧
    b64decode (b64encode [0, 255, 7]) = [0, 255, 7] :=
  c1_roundtrip fsW [0, 255, 7] (by decide) (by decide) (by decide)

/-- C2: on a successful run, the entire content of the output file is exactly
the single statement `window.TEMPLATE_DATA = '<text>';` where `<text>` is made
of base64 alphabet characters (with `=` padding), and the content contains no
newline character at all (in particular no trailing newline). -/
theorem c2_exact_format (fs : FS) (B : List Nat) (hB : ∀ b ∈ B, b < 256)
    (hnolib : lookupFile libDir fs.files = none)
    (hsrc : lookupFile sourceFile fs.files = some B) :
    lookupFile outputFile (create_template_js Oracle.ok fs).2.files
      = some (jsBytes B) ∧
    jsContent B = tplHead ++ b64encode B ++ tplTail ∧
    (∀ c ∈ b64encode B, c ∈ b64chars ∨ c = '=') ∧
    Char.ofNat 10 ∉ jsContent B := by
  refine ⟨?_, rfl, b64encode_mem_valid B hB, ?_⟩
  · rw [create_ok_eq fs B hnolib hsrc]
    simp [writeFile, lookup_setFile_self]
  · simp only [jsContent, List.mem_append]
    rintro ((h | h) | h)
    · exact absurd h (by decide)
    · rcases b64encode_mem_valid B hB _ h with hm | he
      · exact absurd hm (by decide)
      · exact absurd he (by decide)
    · exact absurd h (by decide)

theorem c2_exact_format_witness :
    lookupFile outputFile (create_template_js Oracle.ok fsW).2.files
      = some (jsBytes [0, 255, 7]) ∧
    jsContent [0, 255, 7] = tplHead ++ b64encode [0, 255, 7] ++ tplTail ∧
    (∀ c ∈ b64encode [0, 255, 7], c ∈ b64chars ∨ c = '=') ∧
    Char.ofNat 10 ∉ jsContent [0, 255, 7] :=
  c2_exact_format fsW [0, 255, 7] (by decide) (by decide) (by decide)

/-- C4: with a fixed source file content, two consecutive runs write
byte-identical output content (the transform is deterministic and the second
run overwrites the artifact with exactly the same bytes). -/
theorem c4_idempotent (fs : FS) (B : List Nat)
    (hnolib : lookupFile libDir fs.files = none)
    (hsrc : lookupFile sourceFile fs.files = some B) :
    lookupFile outputFile (create_template_js Oracle.ok fs).2.files
      = some (jsBytes B) ∧
    lookupFile outputFile
        (create_template_js Oracle.ok (create_template_js Oracle.ok fs).2).2.files
      = some (jsBytes B) := by
  rw [create_ok_eq fs B hnolib hsrc]
  have hnolib1 : lookupFile libDir
      (writeFile outputFile (jsBytes B) { fs with dirs := insertDir libDir fs.dirs }).files
      = none := by
    simp only [writeFile]
    rw [lookup_setFile_ne _ _ _ _ (Ne.symm output_ne_lib)]
    exact hnolib
  have hsrc1 : lookupFile sourceFile
      (writeFile outputFile (jsBytes B) { fs with dirs := insertDir libDir fs.dirs }).files
      = some B := by
    simp only [writeFile]
    rw [lookup_setFile_ne _ _ _ _ source_ne_output]
    exact hsrc
  constructor
  · simp [writeFile, lookup_setFile_self]
  · rw [create_ok_eq _ B hnolib1 hsrc1]
    simp [writeFile, lookup_setFile_self]

theorem c4_idempotent_witness :
    lookupFile outputFile (create_template_js Oracle.ok fsW).2.files
      = some (jsBytes [0, 255, 7]) ∧
    lookupFile outputFile
        (create_template_js Oracle.ok (create_template_js Oracle.ok fsW).2).2.files
      = some (jsBytes [0, 255, 7]) :=
  c4_idempotent fsW [0, 255, 7] (by decide) (by decide)

/-- An empty file system. -/
def fsE : FS := ⟨[], []⟩

/-- C3: if the source file does not exist, the run prints the not-found
message, leaves every file unchanged (no output file is written or modified),
and returns normally without raising; after the source file is created, a
second run succeeds with the success messages. -/
theorem c3_missing_source (o : Oracle) (fs : FS) (B : List Nat)
    (hnolib : lookupFile libDir fs.files = none)
    (hnosrc : lookupFile sourceFile fs.files = none)
    (hnosrcd : sourceFile ∉ fs.dirs) :
    (create_template_js o fs).1 = RunResult.returned [notFoundMsg] ∧
    (create_template_js o fs).2.files = fs.files ∧
    (create_template_js Oracle.ok
        (writeFile sourceFile B (create_template_js o fs).2)).1
      = RunResult.returned [successMsg, linkMsg] := by
  rw [create_missing_eq o fs hnolib hnosrc hnosrcd]
  refine ⟨rfl, rfl, ?_⟩
  have hnolib2 : lookupFile libDir
      (writeFile sourceFile B { fs with dirs := insertDir libDir fs.dirs }).files
      = none := by
    simp only [writeFile]
    rw [lookup_setFile_ne _ _ _ _ (Ne.symm source_ne_lib)]
    exact hnolib
  have hsrc2 : lookupFile sourceFile
      (writeFile sourceFile B { fs with dirs := insertDir libDir fs.dirs }).files
      = some B := by
    simp only [writeFile]
    exact lookup_setFile_self _ _ _
  rw [create_ok_eq _ B hnolib2 hsrc2]

theorem c3_missing_source_witness :
    (create_template_js Oracle.ok fsE).1 = RunResult.returned [notFoundMsg] ∧
    (create_template_js Oracle.ok fsE).2.files = fsE.files ∧
    (create_template_js Oracle.ok
        (writeFile sourceFile [1, 2] (create_template_js Oracle.ok fsE).2)).1
      = RunResult.returned [successMsg, linkMsg] :=
  c3_missing_source Oracle.ok fsE [1, 2] (by decide) (by decide) (by decide)

/-- C7 counterexample: on the empty file system the source file is missing,
yet the run still performs a file-system side effect — it creates the `lib`
directory — even though the existence check fails, because `os.makedirs` runs
before the check. The claim that no file-system side effect (including
directory creation) precedes the existence check is therefore false. -/
theorem c7_counterexample :
    (create_template_js Oracle.ok fsE).1 = RunResult.returned [notFoundMsg] ∧
    (create_template_js Oracle.ok fsE).2 ≠ fsE ∧
    (create_template_js Oracle.ok fsE).2.dirs = [libDir] := by decide

/-- C7 amended: the creation of the `lib` directory happens before the
existence check; apart from it no file-system effect precedes the check —
when the source file is missing the run reports not-found, leaves every file
unchanged, and changes the directory list only by (idempotently) adding
`lib`. -/
theorem c7_amended (o : Oracle) (fs : FS)
    (hnolib : lookupFile libDir fs.files = none)
    (hnosrc : lookupFile sourceFile fs.files = none)
    (hnosrcd : sourceFile ∉ fs.dirs) :
    (create_template_js o fs).1 = RunResult.returned [notFoundMsg] ∧
    (create_template_js o fs).2.files = fs.files ∧
    (create_template_js o fs).2.dirs = insertDir libDir fs.dirs := by
  rw [create_missing_eq o fs hnolib hnosrc hnosrcd]
  exact ⟨rfl, rfl, rfl⟩

theorem c7_amended_witness :
    (create_template_js Oracle.ok fsE).1 = RunResult.returned [notFoundMsg] ∧
    (create_template_js Oracle.ok fsE).2.files = fsE.files ∧
    (create_template_js Oracle.ok fsE).2.dirs = insertDir libDir fsE.dirs :=
  c7_amended Oracle.ok fsE (by decide) (by decide) (by decide)

/-- C8: a successful run creates the `lib` directory if absent and writes the
artifact; directory creation is idempotent, so a pre-existing `lib` directory
is kept as-is and causes no error. -/
theorem c8_output_dir (fs : FS) (B : List Nat)
    (hnolib : lookupFile libDir fs.files = none)
    (hsrc : lookupFile sourceFile fs.files = some B) :
    libDir ∈ (create_template_js Oracle.ok fs).2.dirs ∧
    lookupFile outputFile (create_template_js Oracle.ok fs).2.files
      = some (jsBytes B) ∧
    (create_template_js Oracle.ok fs).1
      = RunResult.returned [successMsg, linkMsg] ∧
    (libDir ∈ fs.dirs → (create_template_js Oracle.ok fs).2.dirs = fs.dirs) := by
  rw [create_ok_eq fs B hnolib hsrc]
  refine ⟨?_, ?_, rfl, ?_⟩
  · show libDir ∈ insertDir libDir fs.dirs
    rw [mem_insertDir]
    exact Or.inl rfl
  · simp [writeFile, lookup_setFile_self]
  · intro h
    show insertDir libDir fs.dirs = fs.dirs
    simp [insertDir, h]

theorem c8_output_dir_witness :
    libDir ∈ (create_template_js Oracle.ok fsW).2.dirs ∧
    lookupFile outputFile (create_template_js Oracle.ok fsW).2.files
      = some (jsBytes [0, 255, 7]) ∧
    (create_template_js Oracle.ok fsW).1
      = RunResult.returned [successMsg, linkMsg] ∧
    (libDir ∈ fsW.dirs → (create_template_js Oracle.ok fsW).2.dirs = fsW.dirs) :=
  c8_output_dir fsW [0, 255, 7] (by decide) (by decide)

/-- Shape of every non-raising run: the directory list becomes
`insertDir libDir fs.dirs` and the files are either unchanged or changed only
at `outputFile`. -/
theorem create_shape (o : Oracle) (fs : FS)
    (hnolib : lookupFile libDir fs.files = none) :
    (create_template_js o fs).2.dirs = insertDir libDir fs.dirs ∧
    ((create_template_js o fs).2.files = fs.files ∨
     ∃ v, (create_template_js o fs).2.files = setFile outputFile v fs.files) := by
  simp only [create_template_js, makedirs, hnolib, Option.isSome_none,
    Bool.false_eq_true, if_false]
  split
  · split
    · exact ⟨rfl, Or.inl rfl⟩
    · split
      · exact ⟨rfl, Or.inr ⟨_, rfl⟩⟩
      · exact ⟨rfl, Or.inl rfl⟩
    · split
      · exact ⟨rfl, Or.inr ⟨_, rfl⟩⟩
      · exact ⟨rfl, Or.inl rfl⟩
  · exact ⟨rfl, Or.inl rfl⟩

/-- C9: frame property — for every environment, the run leaves the source
file and every file other than `lib/template-data.js` unchanged, and the
directories afterwards are exactly the old ones plus (at most) `lib`. -/
theorem c9_frame (o : Oracle) (fs : FS) (p : String)
    (hp : p ≠ outputFile)
    (hnolib : lookupFile libDir fs.files = none) :
    lookupFile p (create_template_js o fs).2.files = lookupFile p fs.files ∧
    lookupFile sourceFile (create_template_js o fs).2.files
      = lookupFile sourceFile fs.files ∧
    (∀ d, d ∈ (create_template_js o fs).2.dirs ↔ d = libDir ∨ d ∈ fs.dirs) := by
  obtain ⟨hd, hf⟩ := create_shape o fs hnolib
  refine ⟨?_, ?_, ?_⟩
  · rcases hf with h | ⟨v, h⟩
    · rw [h]
    · rw [h, lookup_setFile_ne _ _ _ _ hp]
  · rcases hf with h | ⟨v, h⟩
    · rw [h]
    · rw [h, lookup_setFile_ne _ _ _ _ source_ne_output]
  · intro d
    rw [hd]
    exact mem_insertDir d libDir fs.dirs

theorem c9_frame_witness :
    lookupFile "other.txt" (create_template_js Oracle.ok fsW).2.files
      = lookupFile "other.txt" fsW.files ∧
    lookupFile sourceFile (create_template_js Oracle.ok fsW).2.files
      = lookupFile sourceFile fsW.files ∧
    (∀ d, d ∈ (create_template_js Oracle.ok fsW).2.dirs ↔ d = libDir ∨ d ∈ fsW.dirs) :=
  c9_frame Oracle.ok fsW "other.txt" (by decide) (by decide)

/-- A state with the `lib` directory, a one-byte source workbook, and an
output file left by an earlier run with different content. -/
def fsC : FS := ⟨[libDir], [(sourceFile, [0]), (outputFile, [88])]⟩

/-- C5 counterexample: the write is not atomic in effect. Text-mode
`open(output_file, "w")` truncates the file before writing, so a write that
fails (here: after 0 bytes) leaves the output file empty — neither the
complete new artifact `jsBytes [0]` nor its previous content `[88]`. -/
theorem c5_counterexample :
    lookupFile outputFile (create_template_js (Oracle.writeFails 0) fsC).2.files
      = some [] ∧
    lookupFile outputFile fsC.files = some [88] ∧
    some ([] : List Nat) ≠ some (jsBytes [0]) := by decide

/-- C5 amended: after any run that does not fail while writing the output
file, the output file either is exactly as it was before the run or holds the
complete new artifact; only a failure during the write itself can leave a
truncated, partially written output file. -/
theorem c5_amended (o : Oracle) (fs : FS)
    (h : ∀ k, o ≠ Oracle.writeFails k) :
    lookupFile outputFile (create_template_js o fs).2.files
      = lookupFile outputFile fs.files ∨
    ∃ B, lookupFile sourceFile fs.files = some B ∧
      lookupFile outputFile (create_template_js o fs).2.files
        = some (jsBytes B) := by
  rcases hlib : lookupFile libDir fs.files with _ | c
  case some => rw [create_libfile_eq o fs c hlib]; exact Or.inl rfl
  case none =>
  cases o with
  | writeFails k => exact absurd rfl (h k)
  | readFails =>
    simp only [create_template_js, makedirs, hlib, Option.isSome_none,
      Bool.false_eq_true, if_false]
    split
    · exact Or.inl rfl
    · exact Or.inl rfl
  | ok =>
    rcases hsrc : lookupFile sourceFile fs.files with _ | B
    · simp only [create_template_js, makedirs, hlib, Option.isSome_none,
        Bool.false_eq_true, if_false, hsrc]
      split
      · exact Or.inl rfl
      · exact Or.inl rfl
    · rw [create_ok_eq fs B hlib hsrc]
      refine Or.inr ⟨B, rfl, ?_⟩
      simp [writeFile, lookup_setFile_self]

theorem c5_amended_witness :
    lookupFile outputFile (create_template_js Oracle.ok fsC).2.files
      = lookupFile outputFile fsC.files ∨
    ∃ B, lookupFile sourceFile fsC.files = some B ∧
      lookupFile outputFile (create_template_js Oracle.ok fsC).2.files
        = some (jsBytes B) :=
  c5_amended Oracle.ok fsC (by intro k h; cases h)

/-- A state where a regular file named `lib` blocks the directory creation. -/
def fsL : FS := ⟨[], [(libDir, [])]⟩

/-- C6 counterexample: `os.makedirs` runs outside the `try` block, so when a
regular file named `lib` is in the way the `FileExistsError` propagates to
the caller — the run does not return normally. -/
theorem c6_counterexample :
    (create_template_js Oracle.ok fsL).1 = RunResult.raised "FileExistsError" ∧
    RunResult.isRaised (create_template_js Oracle.ok fsL).1 = true := by decide

/-- C6 amended: every failure arising inside the `try` block (read, encode,
write) is caught and reported, and the function returns normally; only a
failure of the directory creation, which precedes the `try` block, can
propagate — so whenever no regular file named `lib` blocks `os.makedirs`,
no exception escapes. -/
theorem c6_amended (o : Oracle) (fs : FS)
    (hnolib : lookupFile libDir fs.files = none) :
    RunResult.isRaised (create_template_js o fs).1 = false := by
  simp only [create_template_js, makedirs, hnolib, Option.isSome_none,
    Bool.false_eq_true, if_false]
  split
  · split
    · rfl
    · split
      · rfl
      · rfl
    · split
      · rfl
      · rfl
  · rfl

theorem c6_amended_witness :
    RunResult.isRaised (create_template_js Oracle.readFails fsW).1 = false :=
  c6_amended Oracle.readFails fsW (by decide)

/-- C10: the encoded payload interpolated between the single quotes contains
no single-quote, backslash, or newline character, and the generated line
contains exactly the two delimiting single quotes — the artifact is a
well-formed single-quoted string-literal assignment for every source
content. -/
theorem c10_payload_clean (B : List Nat) (hB : ∀ b ∈ B, b < 256) :
    (∀ c ∈ b64encode B, c ≠ squote ∧ c ≠ Char.ofNat 92 ∧ c ≠ Char.ofNat 10) ∧
    (jsContent B).count squote = 2 := by
  have hclean : ∀ c ∈ b64encode B,
      c ≠ squote ∧ c ≠ Char.ofNat 92 ∧ c ≠ Char.ofNat 10 := by
    intro c hc
    rcases b64encode_mem_valid B hB c hc with hm | he
    · refine ⟨?_, ?_, ?_⟩ <;> (rintro rfl; revert hm; decide)
    · subst he
      exact ⟨by decide, by decide, by decide⟩
  refine ⟨hclean, ?_⟩
  have hzero : (b64encode B).count squote = 0 := by
    rw [List.count_eq_zero]
    intro hmem
    exact (hclean squote hmem).1 rfl
  simp only [jsContent, List.count_append, hzero]
  decide

theorem c10_payload_clean_witness :
    (∀ c ∈ b64encode [0, 255, 7],
      c ≠ squote ∧ c ≠ Char.ofNat 92 ∧ c ≠ Char.ofNat 10) ∧
    (jsContent [0, 255, 7]).count squote = 2 :=
  c10_payload_clean [0, 255, 7] (by decide)
